import Mathlib

/-!
Verification of the zodiac web application server
(`src/project/server/index.js`), shallowly embedded in Lean 4.

The embedding covers:
* `calculateZodiacSign` — the twelve fixed (sign, start, end) ranges and
  the first-match loop over them;
* `validateInput` — name and date-of-birth validation with sanitization;
* the entry store — `append` (push, then truncate to the last 100) and
  `recent` (last 10, most recent first), modelled on `List Entry`;
* the two HTTP handlers `POST /api/calculate` and `GET /api/entries`,
  with persistence read/write outcomes passed in explicitly.
-/

namespace Zodiac

/-- One zodiac date range, as in the `zodiacSigns` array of
`calculateZodiacSign`: a sign label with inclusive start and end
month/day boundaries. -/
structure ZodiacRange where
  sign : String
  startMonth : Nat
  startDay : Nat
  endMonth : Nat
  endDay : Nat
deriving DecidableEq, Repr

/-- The twelve ranges, in the exact order of the `zodiacSigns` array. -/
def zodiacSigns : List ZodiacRange :=
  [ ⟨"Capricorn", 12, 22, 1, 19⟩,
    ⟨"Aquarius", 1, 20, 2, 18⟩,
    ⟨"Pisces", 2, 19, 3, 20⟩,
    ⟨"Aries", 3, 21, 4, 19⟩,
    ⟨"Taurus", 4, 20, 5, 20⟩,
    ⟨"Gemini", 5, 21, 6, 20⟩,
    ⟨"Cancer", 6, 21, 7, 22⟩,
    ⟨"Leo", 7, 23, 8, 22⟩,
    ⟨"Virgo", 8, 23, 9, 22⟩,
    ⟨"Libra", 9, 23, 10, 22⟩,
    ⟨"Scorpio", 10, 23, 11, 21⟩,
    ⟨"Sagittarius", 11, 22, 12, 21⟩ ]

/-- The body of the loop in `calculateZodiacSign`: does `(month, day)`
fall inside range `z`?  Wrapping ranges (`startMonth > endMonth`, the
Capricorn case) have no "month strictly between" clause; non-wrapping
ranges do. -/
def matchesRange (z : ZodiacRange) (month day : Nat) : Bool :=
  if z.endMonth < z.startMonth then
    decide ((month = z.startMonth ∧ z.startDay ≤ day) ∨
            (month = z.endMonth ∧ day ≤ z.endDay))
  else
    decide ((month = z.startMonth ∧ z.startDay ≤ day) ∨
            (month = z.endMonth ∧ day ≤ z.endDay) ∨
            (z.startMonth < month ∧ month < z.endMonth))

/-- The core of `calculateZodiacSign` once month and day are extracted
from the date: scan the ranges in order, return the first match, and
fall back to the sentinel `"Unknown"` when nothing matches. -/
def zodiacSignOf (month day : Nat) : String :=
  match zodiacSigns.find? (fun z => matchesRange z month day) with
  | some z => z.sign
  | none => "Unknown"

/-- The twelve sign labels, in evaluation order. -/
def signNames : List String := zodiacSigns.map (·.sign)

/-- Day count of each month over the classification domain, February
taken with 29 days so that all 366 calendar days are covered. -/
def daysInMonth (m : Nat) : Nat :=
  if m = 2 then 29
  else if m = 4 ∨ m = 6 ∨ m = 9 ∨ m = 11 then 30
  else 31

/-- A valid calendar day among the 366 (month 1–12, day valid for that
month, February 29 included). -/
def isValidDate (m d : Nat) : Prop :=
  1 ≤ m ∧ m ≤ 12 ∧ 1 ≤ d ∧ d ≤ daysInMonth m

instance (m d : Nat) : Decidable (isValidDate m d) := by
  unfold isValidDate; infer_instance

theorem daysInMonth_le_31 (m : Nat) : daysInMonth m ≤ 31 := by
  unfold daysInMonth
  split
  · omega
  · split <;> omega

set_option maxRecDepth 8000 in
set_option synthInstance.maxSize 2048 in
theorem zodiac_partition_bounded : ∀ m < 13, ∀ d < 32, isValidDate m d →
    (zodiacSigns.countP (fun z => matchesRange z m d) = 1 ∧
     zodiacSignOf m d ∈ signNames) := by decide

set_option maxRecDepth 8000 in
set_option synthInstance.maxSize 2048 in
theorem zodiac_total_bounded : ∀ m < 13, ∀ d < 32, 1 ≤ m → 1 ≤ d →
    (zodiacSignOf m d ≠ "Unknown" ∧ zodiacSignOf m d ∈ signNames) := by decide

/-- C1: over every valid calendar date (all 366 days, February 29
included), exactly one of the twelve ranges of `calculateZodiacSign`
matches — the ranges, scanned in their fixed order with first match
returned, are mutually exclusive and jointly exhaustive — the returned
label is one of the twelve sign names, and the 3/20 vs 3/21 boundary
classifies to Pisces vs Aries. -/
theorem claim_c1 :
    (∀ m d, isValidDate m d →
      (zodiacSigns.countP (fun z => matchesRange z m d) = 1 ∧
       zodiacSignOf m d ∈ signNames)) ∧
    zodiacSignOf 3 20 = "Pisces" ∧ zodiacSignOf 3 21 = "Aries" := by
  refine ⟨?_, by decide, by decide⟩
  intro m d hv
  have hm : m < 13 := by have := hv.2.1; omega
  have hd : d < 32 := by
    have h1 := hv.2.2.2
    have h2 := daysInMonth_le_31 m
    omega
  exact zodiac_partition_bounded m hm d hd hv

/-- Witness for C1, instantiated at February 29. -/
theorem claim_c1_witness :
    isValidDate 2 29 ∧
    (zodiacSigns.countP (fun z => matchesRange z 2 29) = 1 ∧
     zodiacSignOf 2 29 ∈ signNames) :=
  ⟨by decide, claim_c1.1 2 29 (by decide)⟩

/-- C10: the defensive `"Unknown"` fallback of `calculateZodiacSign` is
unreachable over the whole rectangle month 1–12, day 1–31, impossible
dates such as February 30 included: some range always matches and one of
the twelve labels is returned. -/
theorem claim_c10 : ∀ m d, 1 ≤ m → m ≤ 12 → 1 ≤ d → d ≤ 31 →
    (zodiacSignOf m d ≠ "Unknown" ∧ zodiacSignOf m d ∈ signNames) := by
  intro m d h1 h2 h3 h4
  exact zodiac_total_bounded m (by omega) d (by omega) h1 h3

/-- Witness for C10, instantiated at the impossible date February 30. -/
theorem claim_c10_witness :
    (1 ≤ 2 ∧ 2 ≤ 12 ∧ 1 ≤ 30 ∧ 30 ≤ 31) ∧
    (zodiacSignOf 2 30 ≠ "Unknown" ∧ zodiacSignOf 2 30 ∈ signNames) :=
  ⟨by decide, claim_c10 2 30 (by decide) (by decide) (by decide) (by decide)⟩

/-! ## The entry store

One persisted submission, as built in the `POST /api/calculate` handler:
`{ id, name, dateOfBirth, zodiacSign, timestamp }`, every field a
string.  The persisted document is the ordered list of entries. -/

structure Entry where
  id : String
  name : String
  dateOfBirth : String
  zodiacSign : String
  timestamp : String
deriving DecidableEq, Repr

/-- A concrete entry used to instantiate store theorems. -/
def sampleEntry : Entry :=
  ⟨"1", "Ada Lovelace", "1990-03-21", "Aries", "2026-10-11T00:00:00.000Z"⟩

/-- `data.push(entry)` followed by
`if (data.length > 100) data.splice(0, data.length - 100)`:
append one entry, then drop the oldest entries so that at most the 100
most recent remain. -/
def appendEntry (data : List Entry) (e : Entry) : List Entry :=
  if 100 < (data ++ [e]).length then
    (data ++ [e]).drop ((data ++ [e]).length - 100)
  else data ++ [e]

/-- `data.slice(-10).reverse()`: the last 10 entries (fewer when the
store holds fewer), most recently added first. -/
def recentEntries (data : List Entry) : List Entry :=
  (data.drop (data.length - 10)).reverse

/-- The last `n` elements of a list (the whole list when it is
shorter). -/
def takeLast {α : Type} (n : Nat) (l : List α) : List α :=
  l.drop (l.length - n)

theorem takeLast_length {α : Type} (n : Nat) (l : List α) :
    (takeLast n l).length = min n l.length := by
  unfold takeLast
  rw [List.length_drop]
  omega

theorem appendEntry_eq_takeLast (data : List Entry) (e : Entry) :
    appendEntry data e = takeLast 100 (data ++ [e]) := by
  unfold appendEntry takeLast
  split
  · rfl
  · next h =>
    rw [show (data ++ [e]).length - 100 = 0 by omega, List.drop_zero]

theorem takeLast_append_takeLast {α : Type} (n : Nat) (l m : List α) :
    takeLast n (takeLast n l ++ m) = takeLast n (l ++ m) := by
  by_cases h : l.length ≤ n
  · rw [show takeLast n l = l by unfold takeLast; rw [show l.length - n = 0 by omega, List.drop_zero]]
  · push_neg at h
    unfold takeLast
    have hk : l.length - n ≤ l.length := by omega
    have h1 : (List.drop (l.length - n) l ++ m).length - n = m.length := by
      rw [List.length_append, List.length_drop]; omega
    have h2 : (l ++ m).length - n = (l.length - n) + m.length := by
      rw [List.length_append]; omega
    rw [h1, ← List.drop_append_of_le_length hk, List.drop_drop, h2]

theorem foldl_appendEntry (s : List Entry) (es : List Entry) (h : es ≠ []) :
    es.foldl appendEntry s = takeLast 100 (s ++ es) := by
  induction es generalizing s with
  | nil => exact absurd rfl h
  | cons e rest ih =>
    rw [List.foldl_cons]
    by_cases hr : rest = []
    · subst hr
      rw [List.foldl_nil, appendEntry_eq_takeLast]
    · rw [ih (appendEntry s e) hr, appendEntry_eq_takeLast,
        takeLast_append_takeLast]
      congr 1
      rw [List.append_assoc]
      rfl

/-- C3: after any `append`, the persisted log holds
`min 100 (previous length + 1)` entries — hence at most 100 — and the
result is a suffix of the previous log with the new entry at its end:
only the oldest entries are dropped (FIFO eviction), no entry is
altered. -/
theorem claim_c3 : ∀ (data : List Entry) (e : Entry),
    (appendEntry data e).length = min 100 (data.length + 1) ∧
    (appendEntry data e).length ≤ 100 ∧
    appendEntry data e <:+ data ++ [e] := by
  intro data e
  rw [appendEntry_eq_takeLast]
  refine ⟨?_, ?_, ?_⟩
  · rw [takeLast_length, List.length_append]
    rfl
  · rw [takeLast_length]
    omega
  · exact List.drop_suffix _ _

/-- C4: the recent-entries query returns the last `min 10 n` entries of
an `n`-entry store, most recently added first (its reverse is a suffix
of the store); and after 105 sequential appends onto any starting
store, it returns exactly the last 10 appended entries in
reverse-insertion order. -/
theorem claim_c4 :
    (∀ data : List Entry,
      (recentEntries data).length = min 10 data.length ∧
      (recentEntries data).reverse <:+ data) ∧
    (∀ (s es : List Entry), es.length = 105 →
      recentEntries (es.foldl appendEntry s) = (es.drop 95).reverse) := by
  constructor
  · intro data
    constructor
    · unfold recentEntries
      rw [List.length_reverse, List.length_drop]
      omega
    · unfold recentEntries
      rw [List.reverse_reverse]
      exact List.drop_suffix _ _
  · intro s es h
    have hne : es ≠ [] := by
      intro he
      rw [he] at h
      simp at h
    rw [foldl_appendEntry s es hne]
    have h1 : takeLast 100 (s ++ es) = es.drop 5 := by
      unfold takeLast
      have hl : (s ++ es).length - 100 = s.length + 5 := by
        rw [List.length_append, h]
        omega
      rw [hl, ← List.drop_drop, List.drop_left]
    rw [h1]
    unfold recentEntries
    have hk : (es.drop 5).length - 10 = 90 := by
      rw [List.length_drop, h]
    rw [hk, List.drop_drop]

/-- Witness for C4, instantiated at 105 copies of a sample entry. -/
theorem claim_c4_witness :
    (List.replicate 105 sampleEntry).length = 105 ∧
    recentEntries ((List.replicate 105 sampleEntry).foldl appendEntry []) =
      ((List.replicate 105 sampleEntry).drop 95).reverse :=
  ⟨by simp, claim_c4.2 [] (List.replicate 105 sampleEntry) (by simp)⟩

/-- C8: round-trip through the store — the entry just appended is the
first (most recent) record returned by the recent-entries query,
field-for-field identical to what was appended; and reading returns
only records already in the store, altering nothing. -/
theorem claim_c8 : ∀ (data : List Entry) (e : Entry),
    (recentEntries (appendEntry data e)).head? = some e ∧
    (∀ x, x ∈ recentEntries data → x ∈ data) := by
  intro data e
  constructor
  · rw [appendEntry_eq_takeLast]
    unfold takeLast recentEntries
    have h1 : (data ++ [e]).length - 100 ≤ data.length := by
      rw [List.length_append, List.length_singleton]
      omega
    rw [List.drop_append_of_le_length h1]
    have h2 :
        (List.drop ((data ++ [e]).length - 100) data ++ [e]).length - 10 ≤
          (List.drop ((data ++ [e]).length - 100) data).length := by
      rw [List.length_append, List.length_singleton]
      omega
    rw [List.drop_append_of_le_length h2, List.head?_reverse,
      List.getLast?_concat]
  · intro x hx
    unfold recentEntries at hx
    rw [List.mem_reverse] at hx
    exact (List.drop_suffix _ _).subset hx

/-- Witness for C8, instantiated at a singleton store. -/
theorem claim_c8_witness :
    (recentEntries (appendEntry [] sampleEntry)).head? = some sampleEntry ∧
    sampleEntry ∈ recentEntries [sampleEntry] ∧
    sampleEntry ∈ [sampleEntry] :=
  ⟨(claim_c8 [] sampleEntry).1, by decide,
    (claim_c8 [sampleEntry] sampleEntry).2 sampleEntry (by decide)⟩

/-! ## Input validation

`validateInput(name, dateOfBirth)`, with dates treated as calendar
dates (year, month, day): the current date is a parameter `today`. -/

/-- A calendar date. -/
structure Date where
  year : Nat
  month : Nat
  day : Nat
deriving DecidableEq, Repr

/-- Strict calendar order: `a` is strictly before `b`. -/
def dateLt (a b : Date) : Prop :=
  a.year < b.year ∨
    (a.year = b.year ∧
      (a.month < b.month ∨ (a.month = b.month ∧ a.day < b.day)))

instance (a b : Date) : Decidable (dateLt a b) := by
  unfold dateLt; infer_instance

/-! String primitives, implemented structurally over the character list
of the string so that they evaluate inside the kernel. -/

def isWsChar (c : Char) : Bool := c.isWhitespace

/-- `String.prototype.trim`: strip whitespace from both ends. -/
def trimList (l : List Char) : List Char :=
  ((l.dropWhile isWsChar).reverse.dropWhile isWsChar).reverse

def jsTrim (s : String) : String := ⟨trimList s.data⟩

/-- Split a character list at every `-`. -/
def splitDash (l : List Char) : List (List Char) :=
  match l with
  | [] => [[]]
  | c :: rest =>
    if c = '-' then [] :: splitDash rest
    else
      match splitDash rest with
      | [] => [[c]]
      | g :: gs => (c :: g) :: gs

/-- Digits-only decimal parse of a character group. -/
def digitsToNat? (l : List Char) : Option Nat :=
  if l = [] then none
  else if l.all (fun c => c.isDigit) then
    some (l.foldl (fun acc c => acc * 10 + (c.toNat - 48)) 0)
  else none

/-- Parse a `YYYY-MM-DD` string into its numeric components. -/
def parseYMD (s : String) : Option Date :=
  match splitDash s.data with
  | [ys, ms, ds] =>
    match digitsToNat? ys, digitsToNat? ms, digitsToNat? ds with
    | some y, some m, some d => some ⟨y, m, d⟩
    | _, _, _ => none
  | _ => none

def isLeapYear (y : Nat) : Bool :=
  decide (y % 4 = 0 ∧ (y % 100 ≠ 0 ∨ y % 400 = 0))

/-- Day count of each month of a given year, for real-calendar
validation of a submitted date. -/
def daysInMonthOfYear (y m : Nat) : Nat :=
  if m = 2 then (if isLeapYear y then 29 else 28)
  else if m = 4 ∨ m = 6 ∨ m = 9 ∨ m = 11 then 30
  else 31

/-- `validator.isDate`: the string parses as `YYYY-MM-DD` and denotes a
real calendar date. -/
def isDate (s : String) : Bool :=
  match parseYMD s with
  | some dt =>
    decide (1 ≤ dt.month ∧ dt.month ≤ 12 ∧ 1 ≤ dt.day ∧
            dt.day ≤ daysInMonthOfYear dt.year dt.month)
  | none => false

/-- The character class of the name rule
`[a-zA-Z\s'-]`: letters, whitespace, hyphen, apostrophe. -/
def isNameChar (c : Char) : Bool :=
  c.isAlpha || c = ' ' || c = '\t' || c = '\n' || c = '\r' ||
    c = '-' || c = Char.ofNat 39

/-- The full-string test `/^[a-zA-Z\s'-]+$/.test(s)`. -/
def nameCharsOk (s : String) : Bool :=
  !s.data.isEmpty && s.data.all isNameChar

/-- `validator.escape` applied to one character: HTML-escape
`&`, `"`, the apostrophe, `<`, `>`, `/`, backslash and backtick. -/
def escapeChar (c : Char) : String :=
  if c = '&' then "&amp;"
  else if c = '"' then "&quot;"
  else if c = Char.ofNat 39 then "&#x27;"
  else if c = '<' then "&lt;"
  else if c = '>' then "&gt;"
  else if c = '/' then "&#x2F;"
  else if c = '\\' then "&#x5C;"
  else if c = Char.ofNat 96 then "&#96;"
  else String.singleton c

/-- `validator.escape`: HTML-escape every character of the string. -/
def escapeHtml (s : String) : String :=
  String.join (s.data.map escapeChar)

/-- The name block of `validateInput`: an else-if chain, so at most one
message is produced, the first applicable one. -/
def nameErrs (name : String) : List String :=
  if name = "" then ["Name is required"]
  else if (jsTrim name).length < 2 then ["Name must be at least 2 characters long"]
  else if 50 < (jsTrim name).length then ["Name must be less than 50 characters"]
  else if !nameCharsOk (jsTrim name) then
    ["Name can only contain letters, spaces, hyphens, and apostrophes"]
  else []

/-- `new Date(today.getFullYear() - 120, today.getMonth(), today.getDate())`:
the same month and day 120 years before the current date. -/
def cutoffDate (today : Date) : Date :=
  ⟨today.year - 120, today.month, today.day⟩

/-- The date block of `validateInput`: another else-if chain — required,
parseable, not strictly after today, not strictly before the 120-year
cutoff. -/
def dateErrs (dob : String) (today : Date) : List String :=
  if dob = "" then ["Date of birth is required"]
  else if !isDate dob then ["Invalid date format"]
  else
    match parseYMD dob with
    | some b =>
      if dateLt today b then ["Date of birth cannot be in the future"]
      else if dateLt b (cutoffDate today) then
        ["Date of birth cannot be more than 120 years ago"]
      else []
    | none => []

/-- The result object of `validateInput`. -/
structure ValidationResult where
  isValid : Bool
  errors : List String
  sanitizedName : String
  sanitizedDate : String
deriving DecidableEq, Repr

/-- `validateInput(name, dateOfBirth)`: collect the name-block messages
then the date-block messages into one list; valid when the list is
empty; sanitize by trimming and HTML-escaping the name and trimming the
date. -/
def validateInput (name dob : String) (today : Date) : ValidationResult :=
  { isValid := (nameErrs name ++ dateErrs dob today).isEmpty
    errors := nameErrs name ++ dateErrs dob today
    sanitizedName := if name = "" then "" else escapeHtml (jsTrim name)
    sanitizedDate := if dob = "" then "" else jsTrim dob }

/-- The four possible name-block messages. -/
def nameMessages : List String :=
  [ "Name is required",
    "Name must be at least 2 characters long",
    "Name must be less than 50 characters",
    "Name can only contain letters, spaces, hyphens, and apostrophes" ]

theorem nameErrs_mem (name x : String) (h : x ∈ nameErrs name) :
    x ∈ nameMessages := by
  unfold nameErrs at h
  unfold nameMessages
  repeat' split at h <;> simp_all

theorem nameErrs_length (name : String) : (nameErrs name).length ≤ 1 := by
  unfold nameErrs
  repeat' split
  all_goals decide

theorem dateErrs_length (dob : String) (today : Date) :
    (dateErrs dob today).length ≤ 1 := by
  unfold dateErrs
  repeat' split
  all_goals decide

/-- C2 is refuted at `name = "1"`: the character-class rule is violated
(`"1"` is not all letters/spaces/hyphens/apostrophes), yet its message
is absent from the returned error list — the else-if chain reported
only the earlier length violation. -/
theorem claim_c2_counterexample :
    nameCharsOk (jsTrim "1") = false ∧
    "Name can only contain letters, spaces, hyphens, and apostrophes" ∉
      (validateInput "1" "2000-05-05" ⟨2026, 10, 11⟩).errors ∧
    (validateInput "1" "2000-05-05" ⟨2026, 10, 11⟩).errors =
      ["Name must be at least 2 characters long"] := by
  refine ⟨by decide, by decide, by decide⟩

/-- C2 as amended: the validator checks the name block and the date
block independently of each other and concatenates their messages, but
inside each block the rules form an else-if chain, so each block
reports at most its first violated rule's message (at most one name
message and one date message), and the input is valid exactly when both
blocks report nothing. -/
theorem claim_c2 : ∀ (name dob : String) (today : Date),
    (validateInput name dob today).errors =
      nameErrs name ++ dateErrs dob today ∧
    (nameErrs name).length ≤ 1 ∧
    (dateErrs dob today).length ≤ 1 ∧
    ((validateInput name dob today).isValid = true ↔
      nameErrs name = [] ∧ dateErrs dob today = []) := by
  intro name dob today
  refine ⟨rfl, nameErrs_length name, dateErrs_length dob today, ?_⟩
  show (nameErrs name ++ dateErrs dob today).isEmpty = true ↔ _
  rw [List.isEmpty_iff, List.append_eq_nil]

theorem dateLt_trans (a b c : Date) (h1 : dateLt a b) (h2 : dateLt b c) :
    dateLt a c := by
  unfold dateLt at *
  omega

theorem not_dateLt_cutoff (today : Date) :
    ¬ dateLt today (cutoffDate today) := by
  rcases today with ⟨y, m, d⟩
  unfold dateLt cutoffDate
  dsimp only
  omega

theorem future_msg_not_name (name : String) :
    "Date of birth cannot be in the future" ∉ nameErrs name := by
  intro hmem
  have h := nameErrs_mem name _ hmem
  revert h
  decide

theorem old_msg_not_name (name : String) :
    "Date of birth cannot be more than 120 years ago" ∉ nameErrs name := by
  intro hmem
  have h := nameErrs_mem name _ hmem
  revert h
  decide

/-- C7: for every date-of-birth string that parses as a calendar date,
the validator emits the future-date message exactly when the date is
strictly after `today`, emits the 120-year message exactly when it is
strictly before `today` minus 120 years (same month and day), and emits
no date message at all — the error list is exactly the name block's —
exactly when the date lies inside that window. -/
theorem claim_c7 : ∀ (name s : String) (b today : Date),
    parseYMD s = some b → isDate s = true →
    (("Date of birth cannot be in the future" ∈
        (validateInput name s today).errors ↔ dateLt today b) ∧
     ("Date of birth cannot be more than 120 years ago" ∈
        (validateInput name s today).errors ↔ dateLt b (cutoffDate today)) ∧
     ((¬ dateLt today b ∧ ¬ dateLt b (cutoffDate today)) ↔
        (validateInput name s today).errors = nameErrs name)) := by
  intro name s b today hp hd
  have hs : s ≠ "" := by
    intro he
    rw [he, (by decide : parseYMD "" = none)] at hp
    exact Option.noConfusion hp
  have hderr : dateErrs s today =
      (if dateLt today b then ["Date of birth cannot be in the future"]
       else if dateLt b (cutoffDate today) then
         ["Date of birth cannot be more than 120 years ago"]
       else []) := by
    unfold dateErrs
    rw [if_neg hs, if_neg (show ¬ ((!isDate s) = true) by rw [hd]; decide), hp]
  have herr : (validateInput name s today).errors =
      nameErrs name ++ dateErrs s today := rfl
  have hne : ("Date of birth cannot be more than 120 years ago" : String) ≠
      "Date of birth cannot be in the future" := by decide
  have hne2 : ("Date of birth cannot be in the future" : String) ≠
      "Date of birth cannot be more than 120 years ago" := by decide
  by_cases h1 : dateLt today b
  · have hde1 : dateErrs s today = ["Date of birth cannot be in the future"] := by
      rw [hderr, if_pos h1]
    have h2 : ¬ dateLt b (cutoffDate today) := fun hcon =>
      not_dateLt_cutoff today (dateLt_trans today b (cutoffDate today) h1 hcon)
    refine ⟨?_, ?_, ?_⟩
    · rw [herr, hde1]
      simp [List.mem_append, h1]
    · rw [herr, hde1]
      simp [List.mem_append, old_msg_not_name name, h2, hne]
    · rw [herr, hde1]
      constructor
      · intro hcon
        exact absurd h1 hcon.1
      · intro heq
        exfalso
        have hlen := congrArg List.length heq
        rw [List.length_append] at hlen
        simp at hlen
  · by_cases h2 : dateLt b (cutoffDate today)
    · have hde1 : dateErrs s today =
          ["Date of birth cannot be more than 120 years ago"] := by
        rw [hderr, if_neg h1, if_pos h2]
      refine ⟨?_, ?_, ?_⟩
      · rw [herr, hde1]
        simp [List.mem_append, future_msg_not_name name, h1, hne2]
      · rw [herr, hde1]
        simp [List.mem_append, h2]
      · rw [herr, hde1]
        constructor
        · intro hcon
          exact absurd h2 hcon.2
        · intro heq
          exfalso
          have hlen := congrArg List.length heq
          rw [List.length_append] at hlen
          simp at hlen
    · have hde1 : dateErrs s today = [] := by
        rw [hderr, if_neg h1, if_neg h2]
      refine ⟨?_, ?_, ?_⟩
      · rw [herr, hde1]
        simp [future_msg_not_name name, h1]
      · rw [herr, hde1]
        simp [old_msg_not_name name, h2]
      · rw [herr, hde1]
        simp [h1, h2]

/-- Witness for C7: the date 1990-03-21 against today = 2026-10-11. -/
theorem claim_c7_witness :
    parseYMD "1990-03-21" = some ⟨1990, 3, 21⟩ ∧
    isDate "1990-03-21" = true ∧
    (("Date of birth cannot be in the future" ∈
        (validateInput "Ada" "1990-03-21" ⟨2026, 10, 11⟩).errors ↔
          dateLt ⟨2026, 10, 11⟩ ⟨1990, 3, 21⟩) ∧
     ("Date of birth cannot be more than 120 years ago" ∈
        (validateInput "Ada" "1990-03-21" ⟨2026, 10, 11⟩).errors ↔
          dateLt ⟨1990, 3, 21⟩ (cutoffDate ⟨2026, 10, 11⟩)) ∧
     ((¬ dateLt ⟨2026, 10, 11⟩ ⟨1990, 3, 21⟩ ∧
       ¬ dateLt ⟨1990, 3, 21⟩ (cutoffDate ⟨2026, 10, 11⟩)) ↔
        (validateInput "Ada" "1990-03-21" ⟨2026, 10, 11⟩).errors =
          nameErrs "Ada")) :=
  ⟨by decide, by decide,
    claim_c7 "Ada" "1990-03-21" ⟨1990, 3, 21⟩ ⟨2026, 10, 11⟩
      (by decide) (by decide)⟩

/-! ## HTTP handlers

The two routes, with persistence outcomes made explicit: the read of
the data file is an `Except` (success with the stored list, or a
failure), and the success of `writeData` is a boolean. -/

/-- `calculateZodiacSign(dateString)`: extract month and day from the
date string, then run the range scan; an unparseable string yields
no match and falls through to `"Unknown"`. -/
def calculateZodiacSign (dateString : String) : String :=
  match parseYMD dateString with
  | some dt => zodiacSignOf dt.month dt.day
  | none => "Unknown"

/-- `readData()`: a read or parse failure is caught, logged, and an
empty array is returned — the error does not propagate. -/
def readData (r : Except String (List Entry)) : List Entry :=
  match r with
  | .ok data => data
  | .error _ => []

/-- The response of `GET /api/entries`: `200 {success, entries}` or a
500 error. -/
inductive GetResponse where
  | ok (entries : List Entry)
  | serverError (msg : String)
deriving DecidableEq, Repr

/-- The `GET /api/entries` handler: read the store, answer with the
last 10 entries most recent first.  `readData` never throws, so the
handler's catch branch is unreachable and the response is always a
success. -/
def getEntries (readRes : Except String (List Entry)) : GetResponse :=
  .ok (recentEntries (readData readRes))

/-- The response of `POST /api/calculate`: `200 {success, result}`,
`400 {error, details}`, or a 500 error. -/
inductive PostResponse where
  | success (name dateOfBirth zodiacSign : String)
  | badRequest (details : List String)
  | serverError (msg : String)
deriving DecidableEq, Repr

/-- The `POST /api/calculate` handler: validate, classify, build the
entry, append it to the data read from the store, persist.  A write
failure throws and is caught as a 500 `"Internal server error"`; only
after a successful write is the success result returned.  The second
component is the persisted document after the request. -/
def postCalculate (name dob : String) (today : Date)
    (readRes : Except String (List Entry)) (writeOk : Bool)
    (newId ts : String) : PostResponse × List Entry :=
  if (validateInput name dob today).isValid then
    if writeOk then
      (PostResponse.success (validateInput name dob today).sanitizedName
        (validateInput name dob today).sanitizedDate
        (calculateZodiacSign (validateInput name dob today).sanitizedDate),
       appendEntry (readData readRes)
         ⟨newId, (validateInput name dob today).sanitizedName,
          (validateInput name dob today).sanitizedDate,
          calculateZodiacSign (validateInput name dob today).sanitizedDate,
          ts⟩)
    else (PostResponse.serverError "Internal server error", readData readRes)
  else (PostResponse.badRequest (validateInput name dob today).errors,
        readData readRes)

/-- C5: when validation succeeds but the write to the store fails, the
request answers 500 `"Internal server error"` — never a fabricated
success carrying the computed sign — and the persisted document is
unchanged. -/
theorem claim_c5 : ∀ (name dob : String) (today : Date)
    (readRes : Except String (List Entry)) (newId ts : String),
    (validateInput name dob today).isValid = true →
    ((postCalculate name dob today readRes false newId ts).1 =
        PostResponse.serverError "Internal server error" ∧
     (∀ n d z, (postCalculate name dob today readRes false newId ts).1 ≠
        PostResponse.success n d z) ∧
     (postCalculate name dob today readRes false newId ts).2 =
        readData readRes) := by
  intro name dob today readRes newId ts hv
  unfold postCalculate
  rw [if_pos hv]
  exact ⟨rfl, fun n d z => PostResponse.noConfusion, rfl⟩

/-- Witness for C5: a valid submission whose write fails. -/
theorem claim_c5_witness :
    (validateInput "Ada Lovelace" "1990-03-21" ⟨2026, 10, 11⟩).isValid = true ∧
    ((postCalculate "Ada Lovelace" "1990-03-21" ⟨2026, 10, 11⟩
        (Except.ok []) false "1" "t").1 =
      PostResponse.serverError "Internal server error" ∧
     (∀ n d z, (postCalculate "Ada Lovelace" "1990-03-21" ⟨2026, 10, 11⟩
        (Except.ok []) false "1" "t").1 ≠ PostResponse.success n d z) ∧
     (postCalculate "Ada Lovelace" "1990-03-21" ⟨2026, 10, 11⟩
        (Except.ok []) false "1" "t").2 = readData (Except.ok [])) :=
  ⟨by decide,
    claim_c5 "Ada Lovelace" "1990-03-21" ⟨2026, 10, 11⟩
      (Except.ok []) "1" "t" (by decide)⟩

/-- C6 is refuted: a failed read of the persisted document during
`GET /api/entries` does not produce a 500 — `readData` swallows the
failure and the handler answers 200 success with an empty entries
list. -/
theorem claim_c6_counterexample :
    getEntries (Except.error "read failure") = GetResponse.ok [] := rfl

/-- C6 as amended: a read failure against the store is swallowed —
`readData` logs it and returns the empty collection, and
`GET /api/entries` answers with a success response carrying an empty
entries list, never a 500.  (Write failures, by contrast, do produce a
500 — see C5.) -/
theorem claim_c6 : ∀ err : String,
    readData (Except.error err) = [] ∧
    getEntries (Except.error err) = GetResponse.ok [] ∧
    (∀ msg, getEntries (Except.error err) ≠ GetResponse.serverError msg) :=
  fun _ => ⟨rfl, rfl, fun _ => GetResponse.noConfusion⟩

/-- C9: for the input `{name: "Ada Lovelace", dateOfBirth: "1990-03-21"}`
(on any current date accepting 1990-03-21), the classifier sees
month 3 and day 21, matches Aries — the 3/21 start boundary being
inclusive — and the submission's result is
`{name: "Ada Lovelace", dateOfBirth: "1990-03-21", zodiacSign: "Aries"}`. -/
theorem claim_c9 : ∀ (today : Date)
    (readRes : Except String (List Entry)) (newId ts : String),
    ¬ dateLt today ⟨1990, 3, 21⟩ →
    ¬ dateLt ⟨1990, 3, 21⟩ (cutoffDate today) →
    (parseYMD "1990-03-21" = some ⟨1990, 3, 21⟩ ∧
     zodiacSignOf 3 21 = "Aries" ∧
     (postCalculate "Ada Lovelace" "1990-03-21" today readRes true newId ts).1 =
       PostResponse.success "Ada Lovelace" "1990-03-21" "Aries") := by
  intro today readRes newId ts h1 h2
  refine ⟨by decide, by decide, ?_⟩
  have hde : dateErrs "1990-03-21" today = [] := by
    unfold dateErrs
    rw [if_neg (show ¬ (("1990-03-21" : String) = "") by decide),
      if_neg (show ¬ ((!isDate "1990-03-21") = true) by decide),
      (by decide : parseYMD "1990-03-21" = some ⟨1990, 3, 21⟩)]
    dsimp only
    rw [if_neg h1, if_neg h2]
  have hv : validateInput "Ada Lovelace" "1990-03-21" today =
      ⟨true, [], "Ada Lovelace", "1990-03-21"⟩ := by
    unfold validateInput
    rw [hde, (by decide : nameErrs "Ada Lovelace" = [])]
    decide
  unfold postCalculate
  rw [hv]
  rfl

/-- Witness for C9, with today = 2026-10-11. -/
theorem claim_c9_witness :
    ¬ dateLt ⟨2026, 10, 11⟩ ⟨1990, 3, 21⟩ ∧
    ¬ dateLt ⟨1990, 3, 21⟩ (cutoffDate ⟨2026, 10, 11⟩) ∧
    (parseYMD "1990-03-21" = some ⟨1990, 3, 21⟩ ∧
     zodiacSignOf 3 21 = "Aries" ∧
     (postCalculate "Ada Lovelace" "1990-03-21" ⟨2026, 10, 11⟩
        (Except.ok []) true "1" "t").1 =
       PostResponse.success "Ada Lovelace" "1990-03-21" "Aries") :=
  ⟨by decide, by decide,
    claim_c9 ⟨2026, 10, 11⟩ (Except.ok []) "1" "t" (by decide) (by decide)⟩

end Zodiac
